import Mathlib

/-!
Verification of the meeting-scheduler's ICS serializer and scheduling flow
(`app.py`), as a shallow embedding in Lean.

Conventions of the embedding:
* A Python `datetime` is a `DateTime` record of calendar fields.  Python's
  `timedelta` arithmetic is embedded by converting to a count of seconds since
  the civil epoch 0000-03-01 (Hinnant's `days_from_civil` / `civil_from_days`
  algorithms, the standard calendar arithmetic) and back.  Python's `datetime`
  is restricted to years 1..9999, so theorems about 4-digit year formatting
  carry that range as a hypothesis.
* Python `None`-able string parameters become `Option String`; Python's
  truthiness test `x or ""` / `if x:` treats both `None` and `""` as falsy,
  which the embedding mirrors explicitly.
* The two sources of nondeterminism in `build_ics` — `datetime.utcnow()` and
  `uuid.uuid4()` — are passed in as explicit extra arguments `dtstampUtc` and
  `freshUid`.
* `strftime("%Y%m%dT%H%M%SZ")`-style zero-padded formatting is embedded by
  emitting fixed-width digit lists; the range lemmas below show all components
  produced by the calendar arithmetic fit those widths.
-/

/-- Calendar fields of a Python `datetime` (naive local time or UTC). -/
structure DateTime where
  year : Nat
  month : Nat
  day : Nat
  hour : Nat
  minute : Nat
  second : Nat
deriving DecidableEq, Repr

/-- Hinnant's `days_from_civil`, with epoch 0000-03-01 so the count is a `Nat`
for every year ≥ 1 (Python datetimes all have year ≥ 1). -/
def daysFromCivil (y m d : Nat) : Nat :=
  let ys := if m ≤ 2 then y - 1 else y
  let era := ys / 400
  let yoe := ys % 400
  let doy := (153 * (if 2 < m then m - 3 else m + 9) + 2) / 5 + (d - 1)
  let doe := yoe * 365 + yoe / 4 - yoe / 100 + doy
  era * 146097 + doe

/-- Hinnant's `civil_from_days`, inverse direction: day count since
0000-03-01 back to (year, month, day). -/
def civilFromDays (z : Nat) : Nat × Nat × Nat :=
  let era := z / 146097
  let doe := z % 146097
  let yoe := (doe - doe / 1460 + doe / 36524 - doe / 146096) / 365
  let y := yoe + era * 400
  let doy := doe - (365 * yoe + yoe / 4 - yoe / 100)
  let mp := (5 * doy + 2) / 153
  let d := doy - (153 * mp + 2) / 5 + 1
  let m := if mp < 10 then mp + 3 else mp - 9
  (if m ≤ 2 then y + 1 else y, m, d)

/-- Seconds since the civil epoch 0000-03-01 00:00:00. -/
def toSecs (dt : DateTime) : Nat :=
  daysFromCivil dt.year dt.month dt.day * 86400
    + dt.hour * 3600 + dt.minute * 60 + dt.second

/-- Rebuild calendar fields from a count of seconds since the epoch. -/
def fromSecs (s : Nat) : DateTime :=
  let z := s / 86400
  let rem := s % 86400
  let c := civilFromDays z
  ⟨c.1, c.2.1, c.2.2, rem / 3600, rem % 3600 / 60, rem % 60⟩

/-- `to_utc(dt_local, tz_offset_minutes=330)` from `app.py`: subtract the fixed
offset (a `timedelta`) from the local time.  The offset is an `Int` so both
east and west offsets are expressible. -/
def to_utc (dt_local : DateTime) (tz_offset_minutes : Int) : DateTime :=
  fromSecs ((toSecs dt_local - tz_offset_minutes * 60).toNat)

/-- A decimal digit character. -/
def digitChar (n : Nat) : Char := Char.ofNat (48 + n % 10)

/-- `%02d`: two-digit zero-padded field (faithful for values < 100; every
field below is proved < 100). -/
def pad2 (n : Nat) : String := String.mk [digitChar (n / 10), digitChar n]

/-- `%04d`: four-digit zero-padded field (faithful for values < 10000, the
Python `datetime` year range). -/
def pad4 (n : Nat) : String :=
  String.mk [digitChar (n / 1000), digitChar (n / 100), digitChar (n / 10), digitChar n]

/-- `strftime("%Y%m%dT%H%M%SZ")`. -/
def fmtUtc (dt : DateTime) : String :=
  pad4 dt.year ++ pad2 dt.month ++ pad2 dt.day ++ "T"
    ++ pad2 dt.hour ++ pad2 dt.minute ++ pad2 dt.second ++ "Z"

/-- `strftime("%Y-%m-%d %H:%M")`, used in the description's timezone line. -/
def fmtHuman (dt : DateTime) : String :=
  pad4 dt.year ++ "-" ++ pad2 dt.month ++ "-" ++ pad2 dt.day ++ " "
    ++ pad2 dt.hour ++ ":" ++ pad2 dt.minute

/-- The module constant `TIMEZONE = "Asia/Kolkata"`. -/
def TIMEZONE : String := "Asia/Kolkata"

/-- Python truthiness coalescing `x or ""` for an optional string. -/
def orEmpty (o : Option String) : String := o.getD ""

/-- `uid = uid or str(uuid.uuid4())` in `build_ics`: Python's `or` falls back
to the fresh uuid when `uid` is `None` or the empty string (both falsy). -/
def resolveUid (uid : Option String) (freshUid : String) : String :=
  match uid with
  | none => freshUid
  | some u => if u = "" then freshUid else u

/-- The `desc_lines` list of `build_ics`: the (None-coalesced) description,
then — only when `meet_link` is truthy — the Google Meet line, then the local
timezone line. -/
def descLines (description : Option String) (meet_link : Option String)
    (dt_start_local : DateTime) : List String :=
  [orEmpty description]
    ++ (match meet_link with
        | none => []
        | some l => if l = "" then [] else ["Google Meet: " ++ l])
    ++ ["Local Timezone: " ++ TIMEZONE ++ " (" ++ fmtHuman dt_start_local ++ ")"]

/-- One `ATTENDEE` record per address, as in `build_ics`. -/
def attendeeLines (attendees : List String) : List String :=
  attendees.map (fun a => "ATTENDEE;ROLE=REQ-PARTICIPANT;RSVP=TRUE:mailto:" ++ a)

/-- The `ics` list literal of `build_ics` (`app.py` lines 126-142), with the
two nondeterministic inputs (`datetime.utcnow()` and `uuid.uuid4()`) passed
explicitly as `dtstampUtc` and `freshUid`. -/
def icsLines (summary : String) (description : Option String)
    (location : Option String) (organizer_email : String)
    (attendees : List String) (dt_start_local dt_end_local : DateTime)
    (uid : Option String) (meet_link : Option String)
    (dtstampUtc : DateTime) (freshUid : String) : List String :=
  [ "BEGIN:VCALENDAR",
    "VERSION:2.0",
    "METHOD:REQUEST",
    "BEGIN:VEVENT",
    "UID:" ++ resolveUid uid freshUid,
    "DTSTAMP:" ++ fmtUtc dtstampUtc,
    "DTSTART:" ++ fmtUtc (to_utc dt_start_local 330),
    "DTEND:" ++ fmtUtc (to_utc dt_end_local 330),
    "SUMMARY:" ++ summary,
    "DESCRIPTION:" ++ String.intercalate "\\n" (descLines description meet_link dt_start_local),
    "LOCATION:" ++ orEmpty location,
    "ORGANIZER:mailto:" ++ organizer_email ]
  ++ attendeeLines attendees
  ++ [ "END:VEVENT",
       "END:VCALENDAR" ]

/-- `build_ics` from `app.py`: the `ics` lines joined with CRLF. -/
def build_ics (summary : String) (description : Option String)
    (location : Option String) (organizer_email : String)
    (attendees : List String) (dt_start_local dt_end_local : DateTime)
    (uid : Option String) (meet_link : Option String)
    (dtstampUtc : DateTime) (freshUid : String) : String :=
  String.intercalate "\r\n"
    (icsLines summary description location organizer_email attendees
      dt_start_local dt_end_local uid meet_link dtstampUtc freshUid)

/-!
The Meet-link extraction of `schedule_meeting` (`app.py` lines 89-99).
An entry point is a dict whose `entryPointType` and `uri` keys may each be
absent (`.get` with a default).  The `conferenceData` value of the created
event may be absent (`.get("conferenceData", {})` yields `{}`, hence no entry
points), well-formed, or malformed in a way that makes the extraction raise —
the `except` clause swallows that and leaves `meet_link = ""`.
-/

structure EntryPoint where
  entryPointType : Option String
  uri : Option String
deriving DecidableEq, Repr

inductive ConfData where
  | absent : ConfData
  | malformed : ConfData
  | entries : List EntryPoint → ConfData

/-- The `for ep in entry_points` loop plus the `if not meet_link` fallback:
take the uri of the first entry point typed "video" (empty if its uri is
absent), and if the link is still empty fall back to the first entry point's
uri. -/
def loopExtract (eps : List EntryPoint) : String :=
  let ml := match eps.find? (fun ep => ep.entryPointType = some "video") with
            | some ep => ep.uri.getD ""
            | none => ""
  if ml = "" then
    match eps with
    | [] => ""
    | e :: _ => e.uri.getD ""
  else ml

/-- Whole extraction including the `try`/`except Exception: pass`. -/
def extractMeetLink (cd : ConfData) : String :=
  match cd with
  | .absent => loopExtract []
  | .malformed => ""
  | .entries eps => loopExtract eps

/-- The selection rule exactly as the spec words it: "the first entry point
explicitly marked as type \x22video\x22, falling back to the first entry point if
none match that type, falling back to an empty link if none exist".  Used to
compare the spec against `loopExtract`. -/
def selectEntryPointSpec (eps : List EntryPoint) : String :=
  match eps.find? (fun ep => ep.entryPointType = some "video") with
  | some ep => ep.uri.getD ""
  | none =>
    match eps with
    | [] => ""
    | e :: _ => e.uri.getD ""

/-- The uri of the first entry point, empty when there is none (or its uri
key is absent). -/
def firstUri (eps : List EntryPoint) : String :=
  (eps.head?.bind (fun ep => ep.uri)).getD ""

/-- The amended selection rule: the uri of the first entry point typed
"video" when that uri is non-empty; otherwise the uri of the first entry
point when any entry point exists; otherwise the empty string. -/
def selectEntryPointAmended (eps : List EntryPoint) : String :=
  match eps.find? (fun ep => ep.entryPointType = some "video") with
  | some ep => if ep.uri.getD "" = "" then firstUri eps else ep.uri.getD ""
  | none => firstUri eps

/-- `created.get("id", str(uuid.uuid4()))` in `schedule_meeting`. -/
def eventId (createdId : Option String) (freshId : String) : String :=
  createdId.getD freshId

/-- The recurrence mapping of the submission handler (`app.py` lines
198-204): `recur_rule = None`, then the `if`/`elif` chain on the selectbox
value. -/
def recurRule (recurrence : String) : Option String :=
  if recurrence = "Daily" then some "RRULE:FREQ=DAILY;COUNT=5"
  else if recurrence = "Weekly" then some "RRULE:FREQ=WEEKLY;COUNT=5"
  else if recurrence = "Monthly" then some "RRULE:FREQ=MONTHLY;COUNT=5"
  else none

/-- `if recurrence: event["recurrence"] = [recurrence]` in `schedule_meeting`:
the event body carries a recurrence field only when the rule is truthy. -/
def eventRecurrence (recurrence : Option String) : Option (List String) :=
  match recurrence with
  | none => none
  | some r => if r = "" then none else some [r]

/-!
The per-attendee email loop (`app.py` lines 237-239).  Each iteration calls
`send_custom_email_with_ics`, a blocking API call that either succeeds or
raises; the loop body has no handler, so a raise propagates and ends the
loop.  The embedding takes the collaborator's behavior as an oracle
`sendResult : String → Option Err` (`none` = success) and returns the list of
attendees whose message was sent, in order, together with the first failure.
-/

def sendLoop (sendResult : String → Option String) :
    List String → List String × Option (String × String)
  | [] => ([], none)
  | e :: rest =>
    match sendResult e with
    | some err => ([], some (e, err))
    | none =>
      let r := sendLoop sendResult rest
      (e :: r.1, r.2)

/-!  Helper lemmas shared by the claim theorems. -/

/-- Two strings whose first characters differ are different strings. -/
theorem head_ne_imp_ne (a b : String) (h : a.data.head? ≠ b.data.head?) : a ≠ b :=
  fun e => h (congrArg (fun s => s.data.head?) e)

/-- `uid or str(uuid.uuid4())` keeps a non-empty given uid. -/
theorem resolveUid_some_of_ne (u f : String) (hu : u ≠ "") :
    resolveUid (some u) f = u := by
  simp [resolveUid, hu]

/-- The month and day produced by the calendar conversion are genuine
calendar values, so the two-digit fields of the timestamp format are exact. -/
theorem civilFromDays_bounds (z : Nat) :
    1 ≤ (civilFromDays z).2.1 ∧ (civilFromDays z).2.1 ≤ 12 ∧
    1 ≤ (civilFromDays z).2.2 ∧ (civilFromDays z).2.2 ≤ 31 := by
  unfold civilFromDays
  dsimp only
  split_ifs <;> refine ⟨?_, ?_, ?_, ?_⟩ <;> omega

/-- All non-year fields of `fromSecs` fit their two-digit format fields. -/
theorem fromSecs_field_bounds (s : Nat) :
    1 ≤ (fromSecs s).month ∧ (fromSecs s).month ≤ 12 ∧
    1 ≤ (fromSecs s).day ∧ (fromSecs s).day ≤ 31 ∧
    (fromSecs s).hour ≤ 23 ∧ (fromSecs s).minute ≤ 59 ∧ (fromSecs s).second ≤ 59 := by
  have h := civilFromDays_bounds (s / 86400)
  unfold fromSecs
  dsimp only
  exact ⟨h.1, h.2.1, h.2.2.1, h.2.2.2, by omega, by omega, by omega⟩

/-- The `%Y%m%dT%H%M%SZ` format always yields 16 characters. -/
theorem fmtUtc_length (dt : DateTime) : (fmtUtc dt).length = 16 := by
  simp [fmtUtc, pad4, pad2, String.length_append, String.length]

/-- The `%Y%m%dT%H%M%SZ` format always ends in the literal Z. -/
theorem fmtUtc_last (dt : DateTime) : (fmtUtc dt).data.getLast? = some 'Z' := rfl

/-- C7: the attendee email loop sends exactly one independent message per
attendee, sequentially in list order.  If every send succeeds, every attendee
receives exactly one message, in order.  If the collaborator fails on
attendee `x` after the successful prefix `pre`, the failure propagates (it is
reported, not swallowed), exactly the attendees of `pre` have been sent
their message, and no attendee after `x` is attempted; nothing is rolled
back. -/
theorem email_loop_sequential_abort (sendResult : String → Option String) :
    (∀ attendees : List String, (∀ a ∈ attendees, sendResult a = none) →
        sendLoop sendResult attendees = (attendees, none)) ∧
    (∀ (pre post : List String) (x err : String),
        (∀ a ∈ pre, sendResult a = none) → sendResult x = some err →
        sendLoop sendResult (pre ++ x :: post) = (pre, some (x, err))) := by
  constructor
  · intro attendees h
    induction attendees with
    | nil => rfl
    | cons a rest ih =>
      have ha : sendResult a = none := h a (List.mem_cons_self a rest)
      simp [sendLoop, ha, ih (fun y hy => h y (List.mem_cons_of_mem a hy))]
  · intro pre post x err hpre hx
    induction pre with
    | nil => simp [sendLoop, hx]
    | cons a rest ih =>
      have ha : sendResult a = none := hpre a (List.mem_cons_self a rest)
      simp [sendLoop, ha, ih (fun y hy => hpre y (List.mem_cons_of_mem a hy))]

/-- Witness for C7 at a concrete run: sends to a and b succeed, the send to c
fails, d is never attempted. -/
theorem email_loop_sequential_abort_witness :
    sendLoop (fun a => if a = "c@x.com" then some "boom" else none)
        (["a@x.com", "b@x.com"] ++ "c@x.com" :: ["d@x.com"])
      = (["a@x.com", "b@x.com"], some ("c@x.com", "boom")) :=
  (email_loop_sequential_abort
      (fun a => if a = "c@x.com" then some "boom" else none)).2
    ["a@x.com", "b@x.com"] ["d@x.com"] "c@x.com" "boom" (by decide) (by decide)

/-- C8: the selectbox choices map exactly to their recurrence rule strings,
"None" maps to no rule, and `schedule_meeting` puts a recurrence field on the
event exactly when a rule was produced (wrapped in a one-element list). -/
theorem recurrence_rule_mapping :
    recurRule "Daily" = some "RRULE:FREQ=DAILY;COUNT=5" ∧
    recurRule "Weekly" = some "RRULE:FREQ=WEEKLY;COUNT=5" ∧
    recurRule "Monthly" = some "RRULE:FREQ=MONTHLY;COUNT=5" ∧
    recurRule "None" = none ∧
    eventRecurrence (recurRule "None") = none ∧
    (∀ choice : String,
        eventRecurrence (recurRule choice) = (recurRule choice).map (fun r => [r])) := by
  refine ⟨by decide, by decide, by decide, by decide, by decide, fun choice => ?_⟩
  unfold recurRule
  split_ifs <;> decide

/-- C6 counterexample: when the first entry point typed "video" has an empty
uri, the code falls back to the uri of the first entry point overall, while
the claimed rule selects the (empty) uri of the video entry point. -/
theorem meet_link_spec_mismatch :
    extractMeetLink (ConfData.entries
        [⟨some "phone", some "tel:123"⟩, ⟨some "video", some ""⟩]) = "tel:123" ∧
    selectEntryPointSpec
        [⟨some "phone", some "tel:123"⟩, ⟨some "video", some ""⟩] = "" ∧
    extractMeetLink (ConfData.entries
        [⟨some "phone", some "tel:123"⟩, ⟨some "video", some ""⟩])
      ≠ selectEntryPointSpec
        [⟨some "phone", some "tel:123"⟩, ⟨some "video", some ""⟩] := by
  refine ⟨rfl, rfl, ?_⟩
  decide

/-- C6 amended: link extraction is total with the three-way fallback.  A
missing or malformed conference-data structure yields the empty link, and on
a well-formed entry-point list the selected link is the uri of the first
entry point typed "video" when that uri is non-empty, else the uri of the
first entry point when one exists, else the empty string. -/
theorem meet_link_extraction_total :
    extractMeetLink ConfData.absent = "" ∧
    extractMeetLink ConfData.malformed = "" ∧
    ∀ eps, extractMeetLink (ConfData.entries eps) = selectEntryPointAmended eps := by
  refine ⟨rfl, rfl, fun eps => ?_⟩
  show loopExtract eps = selectEntryPointAmended eps
  unfold loopExtract selectEntryPointAmended
  cases h : eps.find? (fun ep => ep.entryPointType = some "video") with
  | none =>
    dsimp only
    rw [if_pos rfl]
    cases eps with
    | nil => rfl
    | cons e t => simp [firstUri]
  | some ep =>
    dsimp only
    by_cases hu : ep.uri.getD "" = ""
    · rw [if_pos hu, if_pos hu]
      cases eps with
      | nil => rfl
      | cons e t => simp [firstUri]
    · rw [if_neg hu, if_neg hu]

/-- C1: the serialized DTSTART and DTEND are the local start and end with the
timezone offset subtracted (the serializer passes 330, the default of
`to_utc`), formatted as 15 characters plus a trailing Z; this holds for any
offset fed to `to_utc`, and on the spec's example inputs the output carries
DTSTART:20240110T033000Z and DTEND:20240110T040000Z. -/
theorem dtstart_dtend_are_offset_utc
    (summary : String) (description location : Option String)
    (organizer_email : String) (attendees : List String)
    (s e : DateTime) (uid meet_link : Option String)
    (ts : DateTime) (freshUid : String)
    (hs : (to_utc s 330).year ≤ 9999) (he : (to_utc e 330).year ≤ 9999) :
    (icsLines summary description location organizer_email attendees s e uid
        meet_link ts freshUid).get? 6
      = some ("DTSTART:" ++ fmtUtc (to_utc s 330)) ∧
    (icsLines summary description location organizer_email attendees s e uid
        meet_link ts freshUid).get? 7
      = some ("DTEND:" ++ fmtUtc (to_utc e 330)) ∧
    (∀ (dt : DateTime) (off : Int),
        to_utc dt off = fromSecs ((toSecs dt - off * 60).toNat) ∧
        (fmtUtc (to_utc dt off)).length = 16 ∧
        (fmtUtc (to_utc dt off)).data.getLast? = some 'Z' ∧
        1 ≤ (to_utc dt off).month ∧ (to_utc dt off).month ≤ 12 ∧
        1 ≤ (to_utc dt off).day ∧ (to_utc dt off).day ≤ 31 ∧
        (to_utc dt off).hour ≤ 23 ∧ (to_utc dt off).minute ≤ 59 ∧
        (to_utc dt off).second ≤ 59) ∧
    fmtUtc (to_utc ⟨2024, 1, 10, 9, 0, 0⟩ 330) = "20240110T033000Z" ∧
    fmtUtc (to_utc ⟨2024, 1, 10, 9, 30, 0⟩ 330) = "20240110T040000Z" := by
  refine ⟨rfl, rfl, fun dt off => ?_, by decide, by decide⟩
  have hb := fromSecs_field_bounds ((toSecs dt - off * 60).toNat)
  exact ⟨rfl, fmtUtc_length _, fmtUtc_last _, hb.1, hb.2.1, hb.2.2.1,
    hb.2.2.2.1, hb.2.2.2.2.1, hb.2.2.2.2.2.1, hb.2.2.2.2.2.2⟩

/-- Witness for C1 at the spec's example: both year-range hypotheses hold and
the DTSTART line is exactly the offset-shifted UTC timestamp. -/
theorem dtstart_dtend_are_offset_utc_witness :
    (to_utc ⟨2024, 1, 10, 9, 0, 0⟩ 330).year ≤ 9999 ∧
    (to_utc ⟨2024, 1, 10, 9, 30, 0⟩ 330).year ≤ 9999 ∧
    (icsLines "Team Sync" none none "a@x.com" ["b@x.com", "c@x.com"]
        ⟨2024, 1, 10, 9, 0, 0⟩ ⟨2024, 1, 10, 9, 30, 0⟩ none none
        ⟨2024, 1, 9, 12, 0, 0⟩ "fresh").get? 6
      = some ("DTSTART:" ++ fmtUtc (to_utc ⟨2024, 1, 10, 9, 0, 0⟩ 330)) :=
  ⟨by decide, by decide,
    (dtstart_dtend_are_offset_utc "Team Sync" none none "a@x.com"
      ["b@x.com", "c@x.com"] ⟨2024, 1, 10, 9, 0, 0⟩ ⟨2024, 1, 10, 9, 30, 0⟩
      none none ⟨2024, 1, 9, 12, 0, 0⟩ "fresh" (by decide) (by decide)).1⟩

/-- C2: the serializer emits exactly the uid it is given whenever a non-empty
one is supplied, and the flow supplies the created event's id
(`created.get("id", str(uuid.uuid4()))`), so the UID line of the invite is
that event id. -/
theorem uid_line_is_event_id
    (summary : String) (description location : Option String)
    (organizer_email : String) (attendees : List String) (s e : DateTime)
    (meet_link : Option String) (ts : DateTime) (freshUid : String)
    (createdId : Option String) (freshEventId : String)
    (hid : eventId createdId freshEventId ≠ "") :
    (icsLines summary description location organizer_email attendees s e
        (some (eventId createdId freshEventId)) meet_link ts freshUid).get? 4
      = some ("UID:" ++ eventId createdId freshEventId) := by
  show some ("UID:" ++ resolveUid (some (eventId createdId freshEventId)) freshUid) = _
  rw [resolveUid_some_of_ne _ _ hid]

/-- Witness for C2 with a concrete created event id. -/
theorem uid_line_is_event_id_witness :
    eventId (some "evt_abc123") "fresh-uuid" ≠ "" ∧
    (icsLines "Team Sync" none none "a@x.com" ["b@x.com"]
        ⟨2024, 1, 10, 9, 0, 0⟩ ⟨2024, 1, 10, 9, 30, 0⟩
        (some (eventId (some "evt_abc123") "fresh-uuid")) none
        ⟨2024, 1, 9, 12, 0, 0⟩ "fresh-uuid").get? 4
      = some ("UID:" ++ eventId (some "evt_abc123") "fresh-uuid") :=
  ⟨by decide,
    uid_line_is_event_id "Team Sync" none none "a@x.com" ["b@x.com"]
      ⟨2024, 1, 10, 9, 0, 0⟩ ⟨2024, 1, 10, 9, 30, 0⟩ none
      ⟨2024, 1, 9, 12, 0, 0⟩ "fresh-uuid" (some "evt_abc123") "fresh-uuid"
      (by decide)⟩

/-- C3: with a falsy meetLink (None or "") the serializer's description list
has no Google Meet line; with a non-empty meetLink it has exactly one, with
that exact link, between the given description and the timezone-label line;
the DESCRIPTION field joins these lines with the literal two-character
sequence backslash-n. -/
theorem meet_link_description_line
    (summary : String) (description location : Option String)
    (organizer_email : String) (attendees : List String)
    (s e : DateTime) (uid : Option String) (ts : DateTime) (freshUid : String) :
    ("\\n").data = ['\\', 'n'] ∧
    (∀ meet_link : Option String,
      (icsLines summary description location organizer_email attendees s e uid
          meet_link ts freshUid).get? 9
        = some ("DESCRIPTION:"
            ++ String.intercalate "\\n" (descLines description meet_link s))) ∧
    descLines description none s
      = [orEmpty description,
         "Local Timezone: " ++ TIMEZONE ++ " (" ++ fmtHuman s ++ ")"] ∧
    descLines description (some "") s
      = [orEmpty description,
         "Local Timezone: " ++ TIMEZONE ++ " (" ++ fmtHuman s ++ ")"] ∧
    (∀ l : String, l ≠ "" →
      descLines description (some l) s
        = [orEmpty description, "Google Meet: " ++ l,
           "Local Timezone: " ++ TIMEZONE ++ " (" ++ fmtHuman s ++ ")"] ∧
      String.intercalate "\\n" (descLines description (some l) s)
        = orEmpty description ++ "\\n" ++ ("Google Meet: " ++ l) ++ "\\n"
            ++ ("Local Timezone: " ++ TIMEZONE ++ " (" ++ fmtHuman s ++ ")") ∧
      (orEmpty description ≠ "Google Meet: " ++ l →
        (descLines description (some l) s).count ("Google Meet: " ++ l) = 1)) := by
  refine ⟨by decide, fun meet_link => rfl, rfl, rfl, fun l hl => ?_⟩
  have hdesc : descLines description (some l) s
      = [orEmpty description, "Google Meet: " ++ l,
         "Local Timezone: " ++ TIMEZONE ++ " (" ++ fmtHuman s ++ ")"] := by
    simp [descLines, hl]
  have htz : ("Local Timezone: " ++ TIMEZONE ++ " (" ++ fmtHuman s ++ ")")
      ≠ "Google Meet: " ++ l :=
    head_ne_imp_ne _ _ (show some 'L' ≠ some 'G' by decide)
  refine ⟨hdesc, ?_, fun hd => ?_⟩
  · rw [hdesc]
    simp [String.intercalate, String.intercalate.go, String.append_assoc]
  · rw [hdesc]
    simp [List.count_cons, hd, htz]

/-- Witness for C3 with the spec's example link. -/
theorem meet_link_description_line_witness :
    ("https://meet.example/a-b-c" : String) ≠ "" ∧
    ("" : String) ≠ "Google Meet: " ++ "https://meet.example/a-b-c" ∧
    descLines none (some "https://meet.example/a-b-c") ⟨2024, 1, 10, 9, 0, 0⟩
      = ["", "Google Meet: " ++ "https://meet.example/a-b-c",
         "Local Timezone: " ++ TIMEZONE ++ " ("
           ++ fmtHuman ⟨2024, 1, 10, 9, 0, 0⟩ ++ ")"] :=
  ⟨by decide, by decide,
    ((meet_link_description_line "Team Sync" none none "a@x.com" ["b@x.com"]
        ⟨2024, 1, 10, 9, 0, 0⟩ ⟨2024, 1, 10, 9, 30, 0⟩ none
        ⟨2024, 1, 9, 12, 0, 0⟩ "fresh").2.2.2.2
      "https://meet.example/a-b-c" (by decide)).1⟩

/-- C4: with no attendees the serializer emits zero ATTENDEE records and the
document stays structurally valid: 14 lines, starting with BEGIN:VCALENDAR,
ending with END:VCALENDAR, with a matched BEGIN:VEVENT/END:VEVENT pair, and
`build_ics` joins the lines with carriage-return line-feed. -/
theorem no_attendees_structurally_valid
    (summary : String) (description location : Option String)
    (organizer_email : String) (s e : DateTime) (uid meet_link : Option String)
    (ts : DateTime) (freshUid : String) :
    attendeeLines [] = [] ∧
    (icsLines summary description location organizer_email [] s e uid
        meet_link ts freshUid).length = 14 ∧
    (icsLines summary description location organizer_email [] s e uid
        meet_link ts freshUid).get? 0 = some "BEGIN:VCALENDAR" ∧
    (icsLines summary description location organizer_email [] s e uid
        meet_link ts freshUid).getLast? = some "END:VCALENDAR" ∧
    (icsLines summary description location organizer_email [] s e uid
        meet_link ts freshUid).get? 3 = some "BEGIN:VEVENT" ∧
    (icsLines summary description location organizer_email [] s e uid
        meet_link ts freshUid).get? 12 = some "END:VEVENT" ∧
    (∀ line ∈ icsLines summary description location organizer_email [] s e uid
        meet_link ts freshUid, ∀ a : String,
        line ≠ "ATTENDEE;ROLE=REQ-PARTICIPANT;RSVP=TRUE:mailto:" ++ a) ∧
    build_ics summary description location organizer_email [] s e uid
        meet_link ts freshUid
      = String.intercalate "\r\n" (icsLines summary description location
          organizer_email [] s e uid meet_link ts freshUid) := by
  refine ⟨rfl, rfl, rfl, rfl, rfl, rfl, ?_, rfl⟩
  intro line hline a
  simp only [icsLines, attendeeLines, List.map_nil, List.append_nil,
    List.nil_append, List.mem_append, List.mem_cons, List.not_mem_nil,
    or_false] at hline
  rcases hline with (rfl|rfl|rfl|rfl|rfl|rfl|rfl|rfl|rfl|rfl|rfl|rfl)|rfl|rfl <;>
    first
      | exact head_ne_imp_ne _ _ (show some 'B' ≠ some 'A' by decide)
      | exact head_ne_imp_ne _ _ (show some 'V' ≠ some 'A' by decide)
      | exact head_ne_imp_ne _ _ (show some 'M' ≠ some 'A' by decide)
      | exact head_ne_imp_ne _ _ (show some 'U' ≠ some 'A' by decide)
      | exact head_ne_imp_ne _ _ (show some 'D' ≠ some 'A' by decide)
      | exact head_ne_imp_ne _ _ (show some 'S' ≠ some 'A' by decide)
      | exact head_ne_imp_ne _ _ (show some 'L' ≠ some 'A' by decide)
      | exact head_ne_imp_ne _ _ (show some 'O' ≠ some 'A' by decide)
      | exact head_ne_imp_ne _ _ (show some 'E' ≠ some 'A' by decide)

/-- C5: two runs of the serializer on identical inputs with the same fixed
non-empty uid agree on every line except the DTSTAMP line (index 5),
whatever timestamps and fresh uuids the two runs drew. -/
theorem fixed_uid_differs_only_dtstamp
    (summary : String) (description location : Option String)
    (organizer_email : String) (attendees : List String) (s e : DateTime)
    (u : String) (meet_link : Option String) (ts1 ts2 : DateTime)
    (f1 f2 : String) (hu : u ≠ "") :
    ∀ i : Nat, i ≠ 5 →
      (icsLines summary description location organizer_email attendees s e
          (some u) meet_link ts1 f1).get? i
        = (icsLines summary description location organizer_email attendees s e
          (some u) meet_link ts2 f2).get? i := by
  intro i hi
  simp only [icsLines, resolveUid_some_of_ne u f1 hu,
    resolveUid_some_of_ne u f2 hu]
  rcases i with _|_|_|_|_|_|i
  · rfl
  · rfl
  · rfl
  · rfl
  · rfl
  · exact absurd rfl hi
  · rfl

/-- Witness for C5: with the fixed uid "ev1" the UID lines of two runs with
different timestamps and fresh uuids agree. -/
theorem fixed_uid_differs_only_dtstamp_witness :
    ("ev1" : String) ≠ "" ∧ (4 : Nat) ≠ 5 ∧
    (icsLines "Team Sync" none none "a@x.com" ["b@x.com"]
        ⟨2024, 1, 10, 9, 0, 0⟩ ⟨2024, 1, 10, 9, 30, 0⟩ (some "ev1") none
        ⟨2024, 1, 9, 12, 0, 0⟩ "f1").get? 4
      = (icsLines "Team Sync" none none "a@x.com" ["b@x.com"]
        ⟨2024, 1, 10, 9, 0, 0⟩ ⟨2024, 1, 10, 9, 30, 0⟩ (some "ev1") none
        ⟨2025, 2, 3, 4, 5, 6⟩ "f2").get? 4 :=
  ⟨by decide, by decide,
    fixed_uid_differs_only_dtstamp "Team Sync" none none "a@x.com" ["b@x.com"]
      ⟨2024, 1, 10, 9, 0, 0⟩ ⟨2024, 1, 10, 9, 30, 0⟩ "ev1" none
      ⟨2024, 1, 9, 12, 0, 0⟩ ⟨2025, 2, 3, 4, 5, 6⟩ "f1" "f2" (by decide)
      4 (by decide)⟩

/-- C9: an absent or empty location yields the bare "LOCATION:" field and an
absent or empty description yields an empty leading description segment; in
neither case does a literal "None" appear. -/
theorem empty_fields_stay_empty
    (summary organizer_email : String) (attendees : List String)
    (s e : DateTime) (uid meet_link : Option String) (ts : DateTime)
    (freshUid : String) (location description : Option String)
    (hl : location = none ∨ location = some "")
    (hd : description = none ∨ description = some "") :
    orEmpty location = "" ∧ orEmpty description = "" ∧
    (icsLines summary description location organizer_email attendees s e uid
        meet_link ts freshUid).get? 10 = some "LOCATION:" ∧
    (icsLines summary description location organizer_email attendees s e uid
        meet_link ts freshUid).get? 10 ≠ some "LOCATION:None" ∧
    (descLines description meet_link s).head? = some "" ∧
    (descLines description meet_link s).head? ≠ some "None" := by
  have hloc : ("LOCATION:" ++ "" : String) = "LOCATION:" := by decide
  have hNone : (some "LOCATION:" : Option String) ≠ some "LOCATION:None" := by
    decide
  have hNone2 : (some "" : Option String) ≠ some "None" := by decide
  rcases hl with rfl|rfl <;> rcases hd with rfl|rfl <;>
    refine ⟨rfl, rfl, congrArg some hloc, fun h => ?_, rfl, hNone2⟩ <;>
    · have h2 : some ("LOCATION:" ++ "") = some "LOCATION:None" := h
      rw [hloc] at h2
      exact hNone h2

/-- Witness for C9 with both fields absent. -/
theorem empty_fields_stay_empty_witness :
    ((none : Option String) = none ∨ (none : Option String) = some "") ∧
    (icsLines "Team Sync" none none "a@x.com" ["b@x.com"]
        ⟨2024, 1, 10, 9, 0, 0⟩ ⟨2024, 1, 10, 9, 30, 0⟩ none none
        ⟨2024, 1, 9, 12, 0, 0⟩ "fresh").get? 10 = some "LOCATION:" :=
  ⟨Or.inl rfl,
    (empty_fields_stay_empty "Team Sync" "a@x.com" ["b@x.com"]
      ⟨2024, 1, 10, 9, 0, 0⟩ ⟨2024, 1, 10, 9, 30, 0⟩ none none
      ⟨2024, 1, 9, 12, 0, 0⟩ "fresh" none none (Or.inl rfl)
      (Or.inl rfl)).2.2.1⟩

/-- C10: an empty-string uid is treated like an absent uid — the UID field is
the freshly generated identifier — while any non-empty uid is emitted
exactly. -/
theorem empty_uid_treated_as_absent
    (summary : String) (description location : Option String)
    (organizer_email : String) (attendees : List String) (s e : DateTime)
    (meet_link : Option String) (ts : DateTime) (freshUid : String)
    (u : String) (hu : u ≠ "") :
    resolveUid (some "") freshUid = freshUid ∧
    resolveUid none freshUid = freshUid ∧
    resolveUid (some u) freshUid = u ∧
    (icsLines summary description location organizer_email attendees s e
        (some "") meet_link ts freshUid).get? 4 = some ("UID:" ++ freshUid) ∧
    (icsLines summary description location organizer_email attendees s e
        (some u) meet_link ts freshUid).get? 4 = some ("UID:" ++ u) := by
  refine ⟨rfl, rfl, resolveUid_some_of_ne u freshUid hu, rfl, ?_⟩
  show some ("UID:" ++ resolveUid (some u) freshUid) = _
  rw [resolveUid_some_of_ne u freshUid hu]

/-- Witness for C10 with a concrete non-empty uid. -/
theorem empty_uid_treated_as_absent_witness :
    ("ev1" : String) ≠ "" ∧
    (icsLines "Team Sync" none none "a@x.com" ["b@x.com"]
        ⟨2024, 1, 10, 9, 0, 0⟩ ⟨2024, 1, 10, 9, 30, 0⟩ (some "") none
        ⟨2024, 1, 9, 12, 0, 0⟩ "fresh-uuid").get? 4
      = some ("UID:" ++ "fresh-uuid") :=
  ⟨by decide,
    (empty_uid_treated_as_absent "Team Sync" none none "a@x.com" ["b@x.com"]
      ⟨2024, 1, 10, 9, 0, 0⟩ ⟨2024, 1, 10, 9, 30, 0⟩ none
      ⟨2024, 1, 9, 12, 0, 0⟩ "fresh-uuid" "ev1" (by decide)).2.2.2.1⟩
